import Mathlib

/-!
Verification development for the CRD-based control-plane bridge of the Azure
disk CSI driver: the request-to-resource translation of the five volume
lifecycle operations (create, delete, publish, unpublish, expand), the
spec-equality checker, the per-key volume lock registry, and the az-analyze
attachment-listing helpers.

The repository snapshot ships the unit tests of the provisioner
(pkg/provisioner/crdprovisioner_test.go), the util tests (TestVolumeLock), and
the az-analyze CLI source (cmd/az-analyze/cmd/azva.go).  The provisioner,
spec-equality checker and lock-registry implementations themselves are not in
the snapshot, so those definitions are modelled from the specification text
(marked `Modelled from the spec:`), pinned wherever possible to the concrete
inputs, outputs and error strings that the shipped tests assert.  The
az-analyze listing functions are embedded directly from azva.go.
-/

set_option autoImplicit false

namespace AzDisk

/-- A Go `map[string]string` field: `none` models a nil map, `some l` a map
with the given association list of entries.  The spec requires a nil map and
an empty map to compare equal, so the distinction must be representable. -/
abbrev StrMap := Option (List (String × String))

/-- First value bound to a key in an association list (Go map lookup). -/
def lookupPairs (l : List (String × String)) (k : String) : Option String :=
  match l with
  | [] => none
  | (k₀, v₀) :: rest => if k₀ = k then some v₀ else lookupPairs rest k

/-- Entries of a possibly-nil map; a nil map has no entries. -/
def entriesOf (m : StrMap) : List (String × String) := m.getD []

/-- Modelled from the spec: "Two maps are equal if they contain the same
key→value pairs; a nil map and an empty map are equal" (§4.3). -/
def mapsEqual (a b : StrMap) : Bool :=
  (entriesOf a).all (fun kv => decide (lookupPairs (entriesOf b) kv.1 = some kv.2)) &&
  (entriesOf b).all (fun kv => decide (lookupPairs (entriesOf a) kv.1 = some kv.2))

/-- Capacity range of a volume request/spec (required and limit bytes). -/
structure CapacityRange where
  requiredBytes : Int
  limitBytes : Int
deriving DecidableEq

/-- Access type of a volume capability (mount or block). -/
inductive VolumeCapabilityAccess where
  | mount
  | block
deriving DecidableEq

/-- Access mode of a volume capability. -/
inductive VolumeCapabilityAccessMode where
  | singleNodeWriter
  | multiNodeMultiWriter
deriving DecidableEq

/-- A single capability descriptor of a volume request/spec. -/
structure VolumeCapability where
  accessType : VolumeCapabilityAccess
  accessMode : VolumeCapabilityAccessMode
deriving DecidableEq

/-- Content-source type: a volume or a snapshot; `volume` is the zero value. -/
inductive ContentVolumeSourceType where
  | volume
  | snapshot
deriving DecidableEq

/-- Optional content source of a volume (type and source id). -/
structure ContentVolumeSource where
  contentSource : ContentVolumeSourceType
  contentSourceID : String
deriving DecidableEq

/-- A topology element: a map of segment key→value. -/
structure Topology where
  segments : StrMap
deriving DecidableEq

/-- Accessibility requirement: preferred and requisite topology lists. -/
structure TopologyRequirement where
  preferred : List Topology
  requisite : List Topology
deriving DecidableEq

/-- Spec of a Volume (AzVolume) resource (§3 data model). -/
structure AzVolumeSpec where
  volumeName : String
  maxMountReplicaCount : Int
  volumeCapability : List VolumeCapability
  capacityRange : Option CapacityRange
  parameters : StrMap
  secrets : StrMap
  contentVolumeSource : Option ContentVolumeSource
  accessibilityRequirements : Option TopologyRequirement
deriving DecidableEq

/-- Success detail of a Volume resource status (volume id, capacity bytes). -/
structure AzVolumeStatusDetail where
  volumeID : String
  capacityBytes : Int
deriving DecidableEq

/-- Stored error record of a resource status. -/
structure AzError where
  message : String
deriving DecidableEq

/-- Status of a Volume resource: a success detail or a stored error, written
only by the external reconciling controller (§3). -/
structure AzVolumeStatus where
  detail : Option AzVolumeStatusDetail
  error : Option AzError
deriving DecidableEq

/-- A persisted Volume (AzVolume) resource, keyed by name. -/
structure AzVolume where
  name : String
  spec : AzVolumeSpec
  status : AzVolumeStatus
deriving DecidableEq

/-- Zero value of a capacity range. -/
def zeroCapacityRange : CapacityRange := ⟨0, 0⟩

/-- Zero value of a content source. -/
def zeroContentVolumeSource : ContentVolumeSource := ⟨.volume, ""⟩

/-- Empty topology requirement. -/
def emptyTopologyRequirement : TopologyRequirement := ⟨[], []⟩

/-- Modelled from the spec: "Two capacity ranges are equal if both
required-bytes and limit-bytes match numerically (treating a nil range as
equal to a zero-valued range)" (§4.3). -/
def capacityRangesEqual (a b : Option CapacityRange) : Bool :=
  decide (a.getD zeroCapacityRange = b.getD zeroCapacityRange)

/-- Modelled from the spec: "Two content sources are equal if both are
nil/zero-valued, or if source type and source id match exactly" (§4.3). -/
def contentSourcesEqual (a b : Option ContentVolumeSource) : Bool :=
  decide (a.getD zeroContentVolumeSource = b.getD zeroContentVolumeSource)

/-- Equality of two topology elements: their segment maps hold the same
entries (same nil/empty equivalence as every other map, §4.3). -/
def topologiesEqual (a b : Topology) : Bool :=
  mapsEqual a.segments b.segments

/-- Element-wise, order-sensitive equality of two topology lists (§4.3:
"match element-wise in order; reordering is NOT tolerated"). -/
def topologyListsEqual : List Topology → List Topology → Bool
  | [], [] => true
  | a :: as, b :: bs => topologiesEqual a b && topologyListsEqual as bs
  | _, _ => false

/-- Modelled from the spec: "Two topology requirements are equal if their
preferred and requisite lists match element-wise in order", with a nil
requirement equivalent to an empty one (§4.3). -/
def topologyRequirementsEqual (a b : Option TopologyRequirement) : Bool :=
  let a₀ := a.getD emptyTopologyRequirement
  let b₀ := b.getD emptyTopologyRequirement
  topologyListsEqual a₀.preferred b₀.preferred &&
  topologyListsEqual a₀.requisite b₀.requisite

/-- Modelled from the spec: the spec-equality checker `IsSameSpec` (§4.3).
Field-wise comparison of a persisted Volume resource spec against an incoming
request: parameters and secrets maps, replica count, capacity range, content
source, accessibility requirement; returns true only if every compared field
is equal.  The name follows the call in the shipped unit test
(crdprovisioner_test.go, `isAzVolumeSpecSameAsRequestParams`). -/
def isAzVolumeSpecSameAsRequestParams (existing : AzVolume)
    (maxMountReplicaCount : Int) (capacityRange : Option CapacityRange)
    (parameters secrets : StrMap) (contentVolumeSource : Option ContentVolumeSource)
    (accessibilityReq : Option TopologyRequirement) : Bool :=
  mapsEqual existing.spec.parameters parameters &&
  mapsEqual existing.spec.secrets secrets &&
  decide (existing.spec.maxMountReplicaCount = maxMountReplicaCount) &&
  capacityRangesEqual existing.spec.capacityRange capacityRange &&
  contentSourcesEqual existing.spec.contentVolumeSource contentVolumeSource &&
  topologyRequirementsEqual existing.spec.accessibilityRequirements accessibilityReq

/-- Attachment role: primary (mounted by the workload node) or replica
(pre-staged for failover), §3. -/
inductive Role where
  | primary
  | replica
deriving DecidableEq

/-- Attachment state machine (§3): Attaching (initial), Attached, Detaching,
Detached (terminal), AttachmentFailed. -/
inductive AzVolumeAttachmentAttachmentState where
  | attaching
  | attached
  | detaching
  | detached
  | attachmentFailed
deriving DecidableEq

/-- Spec of a VolumeAttachment (AzVolumeAttachment) resource (§3). -/
structure AzVolumeAttachmentSpec where
  volumeName : String
  volumeID : String
  nodeName : String
  volumeContext : StrMap
  requestedRole : Role
deriving DecidableEq

/-- Success detail of an attachment status: assigned role and publish
context map (§3). -/
structure AzVolumeAttachmentStatusDetail where
  role : Role
  publishContext : StrMap
deriving DecidableEq

/-- Status of a VolumeAttachment resource: optional detail, optional stored
error, and the attachment state (§3). -/
structure AzVolumeAttachmentStatus where
  detail : Option AzVolumeAttachmentStatusDetail
  error : Option AzError
  state : AzVolumeAttachmentAttachmentState
deriving DecidableEq

/-- A persisted VolumeAttachment resource.  `namespaceName` and
`creationTimestamp` carry the resource metadata the az-analyze listing
functions copy into their rows (azva.go); the provisioner ignores them. -/
structure AzVolumeAttachment where
  name : String
  namespaceName : String
  creationTimestamp : Int
  spec : AzVolumeAttachmentSpec
  status : AzVolumeAttachmentStatus
deriving DecidableEq

/-- The managed-disk path pattern the tests print in the parse-error message
(crdprovisioner_test.go, `managedDiskPathRE`). -/
def managedDiskPathRE : String :=
  "(?i).*/subscriptions/(?:.*)/resourceGroups/(?:.*)/providers/Microsoft.Compute/disks/(.+)"

/-- Parse-error message of the disk-name extraction, as asserted by the tests
("could not get disk name from %s, correct format: %s"). -/
def diskNameErr (diskURI : String) : String :=
  "could not get disk name from " ++ diskURI ++ ", correct format: " ++ managedDiskPathRE

/-- Whether the first list is a prefix of the second (character lists). -/
def isPrefixOfChars : List Char → List Char → Bool
  | [], _ => true
  | _ :: _, [] => false
  | p :: ps, c :: cs => p == c && isPrefixOfChars ps cs

/-- Suffix of `s` after the first occurrence of the nonempty pattern `pat`,
or `none` when `pat` does not occur in `s`. -/
def afterFirstChars (pat : List Char) : List Char → Option (List Char)
  | [] => none
  | c :: cs =>
    if isPrefixOfChars pat (c :: cs) then some (List.drop pat.length (c :: cs))
    else afterFirstChars pat cs

/-- Modelled from the spec: disk-URI parsing is an external utility (§1 lists
it out of scope, "specified only as inputs/outputs the core depends on"); it
is modelled here on the managed-disk path pattern the tests assert: the URI
must contain "/subscriptions/", then "/resourceGroups/", then
"/providers/Microsoft.Compute/disks/" followed by a nonempty disk name, and a
failure carries the `diskNameErr` message. -/
def getDiskName (diskURI : String) : Except String String :=
  match afterFirstChars "/subscriptions/".data diskURI.data with
  | none => .error (diskNameErr diskURI)
  | some r₁ =>
    match afterFirstChars "/resourceGroups/".data r₁ with
    | none => .error (diskNameErr diskURI)
    | some r₂ =>
      match afterFirstChars "/providers/Microsoft.Compute/disks/".data r₂ with
      | none => .error (diskNameErr diskURI)
      | some rest =>
        if rest.isEmpty then .error (diskNameErr diskURI) else .ok (String.mk rest)

/-- Whether `pat` occurs in the character list (at the head or further on). -/
def charsContain (pat : List Char) : List Char → Bool
  | [] => pat.isEmpty
  | c :: cs => isPrefixOfChars pat (c :: cs) || charsContain pat cs

/-- Whether `pat` occurs as a substring of `s`. -/
def containsSub (s pat : String) : Bool :=
  charsContain pat.data s.data

/-- gRPC status codes in the error taxonomy the provisioner surfaces (§4.4). -/
inductive Code where
  | alreadyExists
  | notFound
  | internal
  | deadlineExceeded
  | cancelled
deriving DecidableEq

/-- An error returned by a provisioner operation: a typed gRPC status error,
or a raw (unwrapped) error as returned by UnpublishVolume on a parse
failure. -/
inductive ProvError where
  | grpc (code : Code) (message : String)
  | raw (message : String)
deriving DecidableEq

/-- Message text of a provisioner error. -/
def ProvError.msg : ProvError → String
  | .grpc _ m => m
  | .raw m => m

/-- A write issued by the provisioner against the resource store.  The
operations return the list of writes they perform, so that "no store write",
"an update rather than a create" and similar observations are provable. -/
inductive StoreOp where
  | createVolume (v : AzVolume)
  | updateVolume (v : AzVolume)
  | deleteVolume (name : String)
  | createAttachment (a : AzVolumeAttachment)
  | updateAttachment (a : AzVolumeAttachment)
  | deleteAttachment (name : String)
deriving DecidableEq

/-- Volume resources live in one configured namespace and are keyed by name;
lookup returns the first (by invariant, only) resource with that name. -/
def lookupVolume (store : List AzVolume) (name : String) : Option AzVolume :=
  store.find? (fun v => decide (v.name = name))

/-- Attachment lookup by derived resource name. -/
def lookupAttachment (store : List AzVolumeAttachment) (name : String) :
    Option AzVolumeAttachment :=
  store.find? (fun a => decide (a.name = name))

/-- Modelled from the spec: the Volume resource name is "derived
deterministically from the requested volume name" (§3); the derivation
formula is not given (the shipped tests create resources under the requested
name directly), so it is modelled as the identity. -/
def deriveVolumeName (volumeName : String) : String := volumeName

/-- Modelled from the spec: the deterministic attachment name derived from
(volume name, node id) — "a pure, injective, length-bounded encoding
function" (§9); modelled as the separator encoding. -/
def getAzVolumeAttachmentName (volumeName nodeID : String) : String :=
  volumeName ++ "-" ++ nodeID ++ "-attachment"

/-- Modelled from the spec: "derive replica count from
capabilities/parameters" (§4.4); the formula is not given, so it is modelled
as the maxShares parameter minus one, defaulting to zero. -/
def deriveMaxMountReplicaCount (parameters : StrMap) : Int :=
  match (lookupPairs (entriesOf parameters) "maxShares").bind String.toNat? with
  | some n => (n : Int) - 1
  | none => 0

/-- Terminal result the provisioner's create/update wait extracts from the
Volume status written by the external controller: a success detail yields the
provisioned-volume result, a stored error is surfaced as an Internal error,
and no terminal status means the wait ends by deadline (§4.4, §4.2). -/
def waitVolumeResult (terminal : AzVolumeStatus) :
    Except ProvError AzVolumeStatusDetail :=
  match terminal.detail with
  | some d => .ok d
  | none =>
    match terminal.error with
    | some e => .error (.grpc .internal e.message)
    | none => .error (.grpc .deadlineExceeded "context deadline exceeded")

/-- The AlreadyExists conflict message of CreateVolume, as asserted by the
tests ("Volume with name (%s) already exists with different
specifications"). -/
def volumeConflictMsg (volumeName : String) : String :=
  "Volume with name (" ++ volumeName ++ ") already exists with different specifications"

/-- Freshly-translated Volume resource for an absent-volume create (§4.4). -/
def newAzVolume (volumeName : String) (maxMountReplicaCount : Int)
    (capacityRange : Option CapacityRange) (capabilities : List VolumeCapability)
    (parameters secrets : StrMap) (contentSource : Option ContentVolumeSource)
    (topology : Option TopologyRequirement) : AzVolume :=
  { name := deriveVolumeName volumeName
    spec :=
      { volumeName := volumeName
        maxMountReplicaCount := maxMountReplicaCount
        volumeCapability := capabilities
        capacityRange := capacityRange
        parameters := parameters
        secrets := secrets
        contentVolumeSource := contentSource
        accessibilityRequirements := topology }
    status := { detail := none, error := none } }

/-- Modelled from the spec: CreateVolume (§4.4).  `store` is the Volume
collection read at entry; `terminal` is the terminal status the condition
wait observes on the branches that wait for the external controller.  Returns
the call result together with the store writes performed:
- absent → create with the given spec, wait for terminal status;
- present, spec matches, status already successful → return the stored result
  with no store write;
- present, spec matches, status carries a stored error → update the existing
  resource to force a reconciliation retry, then wait;
- present, spec matches, status still pending → wait without writing;
- present, spec differs → AlreadyExists error, no write. -/
def CreateVolume (store : List AzVolume) (terminal : AzVolumeStatus)
    (volumeName : String) (capacityRange : Option CapacityRange)
    (capabilities : List VolumeCapability) (parameters secrets : StrMap)
    (contentSource : Option ContentVolumeSource)
    (topology : Option TopologyRequirement) :
    Except ProvError AzVolumeStatusDetail × List StoreOp :=
  let maxMountReplicaCount := deriveMaxMountReplicaCount parameters
  match lookupVolume store (deriveVolumeName volumeName) with
  | some existing =>
    if isAzVolumeSpecSameAsRequestParams existing maxMountReplicaCount
        capacityRange parameters secrets contentSource topology then
      match existing.status.detail with
      | some d => (.ok d, [])
      | none =>
        match existing.status.error with
        | some _ => (waitVolumeResult terminal, [StoreOp.updateVolume existing])
        | none => (waitVolumeResult terminal, [])
    else
      (.error (.grpc .alreadyExists (volumeConflictMsg volumeName)), [])
  | none =>
    (waitVolumeResult terminal,
      [StoreOp.createVolume (newAzVolume volumeName maxMountReplicaCount
        capacityRange capabilities parameters secrets contentSource topology)])

/-- Modelled from the spec: DeleteVolume (§4.4).  An unparsable URI is
treated as already deleted; a missing resource is an idempotent no-op
success; otherwise the resource is deleted without waiting. -/
def DeleteVolume (store : List AzVolume) (diskURI : String) :
    Except ProvError Unit × List StoreOp :=
  match getDiskName diskURI with
  | .error _ => (.ok (), [])
  | .ok diskName =>
    match lookupVolume store (deriveVolumeName diskName) with
    | none => (.ok (), [])
    | some v => (.ok (), [StoreOp.deleteVolume v.name])

/-- Terminal result of the publish wait: an Attached detail yields the
publish context and role; a stored error on a failed attachment is surfaced;
no terminal state means the wait ends by deadline (§4.4). -/
def waitAttachResult (terminal : AzVolumeAttachmentStatus) :
    Except ProvError AzVolumeAttachmentStatusDetail :=
  match terminal.detail with
  | some d => .ok d
  | none =>
    match terminal.error with
    | some e => .error (.grpc .internal e.message)
    | none => .error (.grpc .deadlineExceeded "context deadline exceeded")

/-- Freshly-translated attachment resource for an absent-attachment publish,
requested role primary (§4.4). -/
def newAzVolumeAttachment (namespaceName : String) (volumeName nodeID : String)
    (diskURI : String) (volumeContext : StrMap) : AzVolumeAttachment :=
  { name := getAzVolumeAttachmentName volumeName nodeID
    namespaceName := namespaceName
    creationTimestamp := 0
    spec :=
      { volumeName := getAzVolumeAttachmentName volumeName nodeID
        volumeID := diskURI
        nodeName := nodeID
        volumeContext := volumeContext
        requestedRole := .primary }
    status := { detail := none, error := none, state := .attaching } }

/-- Modelled from the spec: PublishVolume (§4.4).  A parse failure fails with
NotFound, propagating the parse error text verbatim, before any store access;
an absent attachment is created; an attachment already Attached with a
populated detail is returned with no write; any other existing attachment is
updated to re-trigger reconciliation, then waited on. -/
def PublishVolume (store : List AzVolumeAttachment)
    (terminal : AzVolumeAttachmentStatus) (namespaceName : String)
    (diskURI nodeID : String) (volumeContext : StrMap) :
    Except ProvError AzVolumeAttachmentStatusDetail × List StoreOp :=
  match getDiskName diskURI with
  | .error e => (.error (.grpc .notFound ("Error finding volume : " ++ e)), [])
  | .ok volumeName =>
    let attName := getAzVolumeAttachmentName volumeName nodeID
    match lookupAttachment store attName with
    | none =>
      (waitAttachResult terminal,
        [StoreOp.createAttachment
          (newAzVolumeAttachment namespaceName volumeName nodeID diskURI volumeContext)])
    | some existing =>
      match existing.status.detail, existing.status.state with
      | some d, .attached => (.ok d, [])
      | _, _ =>
        let refreshed :=
          { existing with
            spec := { existing.spec with volumeContext := volumeContext, requestedRole := .primary } }
        (waitAttachResult terminal, [StoreOp.updateAttachment refreshed])

/-- Modelled from the spec: UnpublishVolume (§4.4).  Same parsing discipline
as delete, but a parse failure returns the underlying parse error unwrapped;
a missing attachment is a no-op success; otherwise the attachment is deleted
without waiting. -/
def UnpublishVolume (store : List AzVolumeAttachment) (diskURI nodeID : String) :
    Except ProvError Unit × List StoreOp :=
  match getDiskName diskURI with
  | .error e => (.error (.raw e), [])
  | .ok volumeName =>
    let attName := getAzVolumeAttachmentName volumeName nodeID
    match lookupAttachment store attName with
    | none => (.ok (), [])
    | some _ => (.ok (), [StoreOp.deleteAttachment attName])

/-- The not-found error text of a failed Volume lookup, as asserted by the
tests ("azvolume.disk.csi.azure.com \"%s\" not found"). -/
def volumeNotFoundMsg (name : String) : String :=
  "azvolume.disk.csi.azure.com \"" ++ name ++ "\" not found"

/-- The Internal error message of a failed ExpandVolume resolution, as
asserted by the tests ("Failed to retrieve volume id (%s), error: %s"). -/
def expandLookupErrMsg (diskURI errText : String) : String :=
  "Failed to retrieve volume id (" ++ diskURI ++ "), error: " ++ errText

/-- Terminal result of the expand wait: the status detail once its
capacity-bytes field reflects the requested required-bytes (§4.4). -/
def waitExpandResult (terminal : AzVolumeStatus) (required : Int) :
    Except ProvError AzVolumeStatusDetail :=
  match terminal.detail with
  | some d =>
    if d.capacityBytes = required then .ok d
    else .error (.grpc .deadlineExceeded "context deadline exceeded")
  | none => .error (.grpc .deadlineExceeded "context deadline exceeded")

/-- Modelled from the spec: ExpandVolume (§4.4).  The Volume resource is
resolved by the parsed disk name (the tests pin the not-found error to the
name-based lookup); a failed resolution fails with Internal naming the lookup
and the underlying error; otherwise the spec capacity range is updated and
the wait returns the updated capacity. -/
def ExpandVolume (store : List AzVolume) (terminal : AzVolumeStatus)
    (diskURI : String) (capacityRange : Option CapacityRange) :
    Except ProvError AzVolumeStatusDetail × List StoreOp :=
  match getDiskName diskURI with
  | .error e => (.error (.grpc .internal (expandLookupErrMsg diskURI e)), [])
  | .ok diskName =>
    match lookupVolume store (deriveVolumeName diskName) with
    | none =>
      (.error (.grpc .internal
        (expandLookupErrMsg diskURI (volumeNotFoundMsg (deriveVolumeName diskName)))), [])
    | some v =>
      let updated := { v with spec := { v.spec with capacityRange := capacityRange } }
      (waitExpandResult terminal (capacityRange.getD zeroCapacityRange).requiredBytes,
        [StoreOp.updateVolume updated])

/-- Modelled from the spec: the Key Lock Registry state, "a mapping from an
arbitrary string key to a held/free flag" (§4.1); a key is held iff it is a
member of the list. -/
abbrev VolumeLocks := List String

/-- Modelled from the spec: `TryAcquire(key)` returns true and marks the key
held iff it was previously free; otherwise returns false and changes
nothing (§4.1). -/
def VolumeLocks.TryAcquire (locks : VolumeLocks) (volumeID : String) :
    Bool × VolumeLocks :=
  if volumeID ∈ locks then (false, locks) else (true, volumeID :: locks)

/-- Modelled from the spec: `Release(key)` marks the key free unconditionally
(idempotent; releasing a free key is a no-op, never an error) (§4.1). -/
def VolumeLocks.Release (locks : VolumeLocks) (volumeID : String) : VolumeLocks :=
  locks.filter (fun k => decide (k ≠ volumeID))

/-- Row shape of the az-analyze attachment listings (azva.go,
`AzvaResource`).  `age` abstracts the creation-age duration as `now`
minus the creation timestamp. -/
structure AzvaResource where
  resourceType : String
  namespaceName : String
  name : String
  age : Int
  requestRole : Role
  role : Role
  state : AzVolumeAttachmentAttachmentState
deriving DecidableEq

/-- The volume-context key az-analyze reads the PVC claim name from
(consts.PvcNameKey; the constant's value is irrelevant to the listing
logic). -/
def pvcNameKey : String := "csi.storage.k8s.io/pvc/name"

/-- Row built for one matching attachment; `role` is read from the status
detail, which in azva.go is the unguarded `Status.Detail.Role` pointer
dereference. -/
def azvaRow (resourceType : String) (now : Int) (a : AzVolumeAttachment)
    (d : AzVolumeAttachmentStatusDetail) : AzvaResource :=
  { resourceType := resourceType
    namespaceName := a.namespaceName
    name := a.name
    age := now - a.creationTimestamp
    requestRole := a.spec.requestedRole
    role := d.role
    state := a.status.state }

/-- The attachment loop of azva.go `GetAzVolumeAttachementsByPod` (lines
163-177): for every attachment whose volume-context PVC claim name is a key
of `pvcClaimNameSet` (Go map access yields "" for a missing key), a row is
appended reading `Status.Detail.Role` without a presence check; `none` models
the nil-pointer panic when a matching attachment has no status detail. -/
def GetAzVolumeAttachementsByPod (pvcClaimNameSet : List (String × String))
    (now : Int) : List AzVolumeAttachment → Option (List AzvaResource)
  | [] => some []
  | a :: rest =>
    let pvcClaimName := (lookupPairs (entriesOf a.spec.volumeContext) pvcNameKey).getD ""
    match lookupPairs pvcClaimNameSet pvcClaimName with
    | some pName =>
      match a.status.detail with
      | none => none
      | some d =>
        (GetAzVolumeAttachementsByPod pvcClaimNameSet now rest).map
          (fun rs => azvaRow pName now a d :: rs)
    | none => GetAzVolumeAttachementsByPod pvcClaimNameSet now rest

/-- The attachment loop of azva.go `GetAzVolumeAttachementsByNode` (lines
205-216): every attachment whose spec node name is in `nodeNames` yields a
row reading `Status.Detail.Role` without a presence check. -/
def GetAzVolumeAttachementsByNode (nodeNames : List String) (now : Int) :
    List AzVolumeAttachment → Option (List AzvaResource)
  | [] => some []
  | a :: rest =>
    if a.spec.nodeName ∈ nodeNames then
      match a.status.detail with
      | none => none
      | some d =>
        (GetAzVolumeAttachementsByNode nodeNames now rest).map
          (fun rs => azvaRow a.spec.nodeName now a d :: rs)
    else GetAzVolumeAttachementsByNode nodeNames now rest

/-- The attachment loop of azva.go `GetAzVolumeAttachementsByZone` (lines
244-255): every attachment whose spec node name is a key of `nodeSet` yields
a row (typed with the node's zone) reading `Status.Detail.Role` without a
presence check. -/
def GetAzVolumeAttachementsByZone (nodeSet : List (String × String))
    (now : Int) : List AzVolumeAttachment → Option (List AzvaResource)
  | [] => some []
  | a :: rest =>
    match lookupPairs nodeSet a.spec.nodeName with
    | some zName =>
      match a.status.detail with
      | none => none
      | some d =>
        (GetAzVolumeAttachementsByZone nodeSet now rest).map
          (fun rs => azvaRow zName now a d :: rs)
    | none => GetAzVolumeAttachementsByZone nodeSet now rest

/-! ### Helper lemmas -/

theorem isPrefixOfChars_self_append (pat ys : List Char) :
    isPrefixOfChars pat (pat ++ ys) = true := by
  induction pat with
  | nil => rfl
  | cons p ps ih => simp [isPrefixOfChars, ih]

theorem charsContain_of_isPrefix (pat s : List Char)
    (h : isPrefixOfChars pat s = true) : charsContain pat s = true := by
  cases s with
  | nil =>
    cases pat with
    | nil => rfl
    | cons p ps => simp [isPrefixOfChars] at h
  | cons c cs => simp [charsContain, h]

theorem charsContain_append_right (xs : List Char) {pat ys : List Char}
    (h : charsContain pat ys = true) : charsContain pat (xs ++ ys) = true := by
  induction xs with
  | nil => simpa using h
  | cons x rest ih => simp [charsContain, ih]

/-- A substring check succeeds on any string ending in the pattern. -/
theorem containsSub_append_end (a b : String) : containsSub (a ++ b) b = true := by
  unfold containsSub
  rw [String.data_append]
  exact charsContain_append_right a.data
    (charsContain_of_isPrefix _ _ (by simpa using isPrefixOfChars_self_append b.data []))

/-- A substring check succeeds on any string starting with the pattern. -/
theorem containsSub_append_start (b c : String) : containsSub (b ++ c) b = true := by
  unfold containsSub
  rw [String.data_append]
  exact charsContain_of_isPrefix _ _ (isPrefixOfChars_self_append b.data c.data)

/-- A substring check succeeds on any extension to the left of a string it
already succeeds on. -/
theorem containsSub_append_left (a b pat : String)
    (h : containsSub b pat = true) : containsSub (a ++ b) pat = true := by
  unfold containsSub at h ⊢
  rw [String.data_append]
  exact charsContain_append_right a.data h

/-! ### Fixtures

Concrete resources used by witnesses and counterexamples; the volume mirrors
the pre-existing AzVolume of the CreateVolume unit tests
(crdprovisioner_test.go lines 246-300), with the managed-disk URI shortened. -/

/-- A well-formed managed-disk URI whose disk name parses to "d". -/
def sampleURI : String :=
  "/subscriptions/s/resourceGroups/rg/providers/Microsoft.Compute/disks/d"

/-- Topology elements used by the fixtures. -/
def sampleTopo1 : Topology := ⟨some [("region", "R1"), ("zone", "Z1")]⟩

def sampleTopo2 : Topology := ⟨some [("region", "R2"), ("zone", "Z2")]⟩

def sampleTopo3 : Topology := ⟨some [("region", "R3"), ("zone", "Z3")]⟩

/-- Topology requirement of the fixture volume. -/
def sampleTopoReq : TopologyRequirement := ⟨[sampleTopo1, sampleTopo2], [sampleTopo3]⟩

/-- The fixture volume's spec (derived replica count of its parameters is 0). -/
def sampleSpec : AzVolumeSpec :=
  { volumeName := "d"
    maxMountReplicaCount := 0
    volumeCapability := [⟨.mount, .singleNodeWriter⟩]
    capacityRange := some ⟨2, 2⟩
    parameters := some [("location", "westus2")]
    secrets := some [("secret", "not really")]
    contentVolumeSource := some ⟨.volume, "content-volume-source"⟩
    accessibilityRequirements := some sampleTopoReq }

/-- Fixture volume with a successful status detail. -/
def sampleVolume : AzVolume :=
  { name := "d", spec := sampleSpec, status := ⟨some ⟨sampleURI, 2⟩, none⟩ }

/-- Fixture volume whose status carries a stored error instead of a detail. -/
def sampleVolumeErrored : AzVolume :=
  { name := "d", spec := sampleSpec
    status := ⟨none, some ⟨"Test error message here"⟩⟩ }

/-! ### Claims -/

/-- C1: a CreateVolume call that finds a Volume resource under the derived
name whose spec matches the request and whose status already holds a
successful detail returns that stored result (same volume id) with no error,
performing no store write and no mutation of the existing resource. -/
theorem createVolume_idempotent_replay
    (store : List AzVolume) (terminal : AzVolumeStatus) (volumeName : String)
    (capacityRange : Option CapacityRange) (capabilities : List VolumeCapability)
    (parameters secrets : StrMap) (contentSource : Option ContentVolumeSource)
    (topology : Option TopologyRequirement) (existing : AzVolume)
    (d : AzVolumeStatusDetail)
    (hfound : lookupVolume store (deriveVolumeName volumeName) = some existing)
    (hsame : isAzVolumeSpecSameAsRequestParams existing
      (deriveMaxMountReplicaCount parameters) capacityRange parameters secrets
      contentSource topology = true)
    (hdetail : existing.status.detail = some d) :
    CreateVolume store terminal volumeName capacityRange capabilities parameters
      secrets contentSource topology = (.ok d, []) := by
  unfold CreateVolume
  rw [hfound]
  simp [hsame, hdetail]

theorem createVolume_idempotent_replay_witness :
    lookupVolume [sampleVolume] (deriveVolumeName "d") = some sampleVolume ∧
    CreateVolume [sampleVolume] ⟨none, none⟩ "d" (some ⟨2, 2⟩)
      [⟨.mount, .singleNodeWriter⟩] (some [("location", "westus2")])
      (some [("secret", "not really")]) (some ⟨.volume, "content-volume-source"⟩)
      (some sampleTopoReq) = (.ok ⟨sampleURI, 2⟩, []) :=
  ⟨rfl,
    createVolume_idempotent_replay [sampleVolume] ⟨none, none⟩ "d" (some ⟨2, 2⟩)
      [⟨.mount, .singleNodeWriter⟩] (some [("location", "westus2")])
      (some [("secret", "not really")]) (some ⟨.volume, "content-volume-source"⟩)
      (some sampleTopoReq) sampleVolume ⟨sampleURI, 2⟩ rfl (by decide) rfl⟩

/-- C3: a CreateVolume call that finds a matching-spec resource whose status
carries a stored error issues an update of the existing resource (a store
update, never a create of a second resource), waits, and returns success once
the observed terminal status is successful. -/
theorem createVolume_error_status_retries_via_update
    (store : List AzVolume) (terminal : AzVolumeStatus) (volumeName : String)
    (capacityRange : Option CapacityRange) (capabilities : List VolumeCapability)
    (parameters secrets : StrMap) (contentSource : Option ContentVolumeSource)
    (topology : Option TopologyRequirement) (existing : AzVolume) (e : AzError)
    (d : AzVolumeStatusDetail)
    (hfound : lookupVolume store (deriveVolumeName volumeName) = some existing)
    (hsame : isAzVolumeSpecSameAsRequestParams existing
      (deriveMaxMountReplicaCount parameters) capacityRange parameters secrets
      contentSource topology = true)
    (hnodetail : existing.status.detail = none)
    (herr : existing.status.error = some e)
    (hterm : terminal.detail = some d) :
    CreateVolume store terminal volumeName capacityRange capabilities parameters
      secrets contentSource topology = (.ok d, [StoreOp.updateVolume existing]) := by
  unfold CreateVolume
  rw [hfound]
  simp [hsame, hnodetail, herr, waitVolumeResult, hterm]

theorem createVolume_error_status_retries_via_update_witness :
    sampleVolumeErrored.status.error.isSome = true ∧
    CreateVolume [sampleVolumeErrored] ⟨some ⟨sampleURI, 2⟩, none⟩ "d" (some ⟨2, 2⟩)
      [⟨.mount, .singleNodeWriter⟩] (some [("location", "westus2")])
      (some [("secret", "not really")]) (some ⟨.volume, "content-volume-source"⟩)
      (some sampleTopoReq) =
      (.ok ⟨sampleURI, 2⟩, [StoreOp.updateVolume sampleVolumeErrored]) :=
  ⟨rfl,
    createVolume_error_status_retries_via_update [sampleVolumeErrored]
      ⟨some ⟨sampleURI, 2⟩, none⟩ "d" (some ⟨2, 2⟩)
      [⟨.mount, .singleNodeWriter⟩] (some [("location", "westus2")])
      (some [("secret", "not really")]) (some ⟨.volume, "content-volume-source"⟩)
      (some sampleTopoReq) sampleVolumeErrored ⟨"Test error message here"⟩
      ⟨sampleURI, 2⟩ rfl (by decide) rfl rfl rfl⟩

/-- C2 counterexample: the spec-equality check of §4.3 does not compare the
capability descriptors, so a CreateVolume request differing from the existing
resource only in its capability list is treated as identical and replayed
(no AlreadyExists error), refuting the claim that a differing capability
field fails with AlreadyExists. -/
theorem createVolume_capability_mismatch_not_conflict_cex :
    sampleVolume.spec.volumeCapability ≠ [⟨.block, .singleNodeWriter⟩] ∧
    CreateVolume [sampleVolume] ⟨none, none⟩ "d" (some ⟨2, 2⟩)
      [⟨.block, .singleNodeWriter⟩] (some [("location", "westus2")])
      (some [("secret", "not really")]) (some ⟨.volume, "content-volume-source"⟩)
      (some sampleTopoReq) = (.ok ⟨sampleURI, 2⟩, []) :=
  ⟨by decide, rfl⟩

/-- C2 (amended): a CreateVolume call that finds a Volume resource under the
derived name whose spec differs from the request in any field compared by the
spec-equality check (capacity, parameters, secrets, content source,
accessibility, replica count — the capability list is not compared) fails with
an AlreadyExists error whose message says the volume "already exists with
different specification", and performs no store write, leaving the existing
resource unmodified. -/
theorem createVolume_conflict_on_spec_mismatch
    (store : List AzVolume) (terminal : AzVolumeStatus) (volumeName : String)
    (capacityRange : Option CapacityRange) (capabilities : List VolumeCapability)
    (parameters secrets : StrMap) (contentSource : Option ContentVolumeSource)
    (topology : Option TopologyRequirement) (existing : AzVolume)
    (hfound : lookupVolume store (deriveVolumeName volumeName) = some existing)
    (hdiff : isAzVolumeSpecSameAsRequestParams existing
      (deriveMaxMountReplicaCount parameters) capacityRange parameters secrets
      contentSource topology = false) :
    CreateVolume store terminal volumeName capacityRange capabilities parameters
      secrets contentSource topology =
      (.error (.grpc .alreadyExists (volumeConflictMsg volumeName)), []) ∧
    containsSub (volumeConflictMsg volumeName)
      "already exists with different specification" = true := by
  constructor
  · unfold CreateVolume
    rw [hfound]
    simp [hdiff]
  · unfold volumeConflictMsg
    exact containsSub_append_left _ _ _ (by decide)

theorem createVolume_conflict_on_spec_mismatch_witness :
    CreateVolume [sampleVolume] ⟨none, none⟩ "d" (some ⟨2, 2⟩)
      [⟨.mount, .singleNodeWriter⟩] (some [("parameter", "new params")])
      (some [("secret", "not really")]) (some ⟨.volume, "content-volume-source"⟩)
      (some sampleTopoReq) =
      (.error (.grpc .alreadyExists (volumeConflictMsg "d")), []) ∧
    containsSub (volumeConflictMsg "d")
      "already exists with different specification" = true :=
  createVolume_conflict_on_spec_mismatch [sampleVolume] ⟨none, none⟩ "d"
    (some ⟨2, 2⟩) [⟨.mount, .singleNodeWriter⟩] (some [("parameter", "new params")])
    (some [("secret", "not really")]) (some ⟨.volume, "content-volume-source"⟩)
    (some sampleTopoReq) sampleVolume rfl (by decide)

/-- C4: deleting with an unparsable disk URI or with no Volume resource under
the parsed disk name succeeds, and unpublishing with no matching attachment
resource succeeds; the one exception is unpublishing with a syntactically
invalid disk URI, which returns the underlying parse error unwrapped (a raw
error, not a typed gRPC status). -/
theorem delete_unpublish_tolerance :
    (∀ (store : List AzVolume) (diskURI e : String),
      getDiskName diskURI = .error e →
      DeleteVolume store diskURI = (.ok (), [])) ∧
    (∀ (store : List AzVolume) (diskURI diskName : String),
      getDiskName diskURI = .ok diskName →
      lookupVolume store (deriveVolumeName diskName) = none →
      DeleteVolume store diskURI = (.ok (), [])) ∧
    (∀ (store : List AzVolumeAttachment) (diskURI nodeID diskName : String),
      getDiskName diskURI = .ok diskName →
      lookupAttachment store (getAzVolumeAttachmentName diskName nodeID) = none →
      UnpublishVolume store diskURI nodeID = (.ok (), [])) ∧
    (∀ (store : List AzVolumeAttachment) (diskURI nodeID e : String),
      getDiskName diskURI = .error e →
      UnpublishVolume store diskURI nodeID = (.error (.raw e), [])) := by
  refine ⟨?_, ?_, ?_, ?_⟩
  · intro store diskURI e hparse
    unfold DeleteVolume
    rw [hparse]
  · intro store diskURI diskName hparse hmiss
    unfold DeleteVolume
    rw [hparse]
    simp [hmiss]
  · intro store diskURI nodeID diskName hparse hmiss
    unfold UnpublishVolume
    rw [hparse]
    simp [hmiss]
  · intro store diskURI nodeID e hparse
    unfold UnpublishVolume
    rw [hparse]

theorem delete_unpublish_tolerance_witness :
    DeleteVolume [] "x" = (.ok (), []) ∧
    DeleteVolume [] sampleURI = (.ok (), []) ∧
    UnpublishVolume [] sampleURI "n1" = (.ok (), []) ∧
    UnpublishVolume [] "x" "n1" = (.error (.raw (diskNameErr "x")), []) :=
  ⟨delete_unpublish_tolerance.1 [] "x" (diskNameErr "x") rfl,
    delete_unpublish_tolerance.2.1 [] sampleURI "d" rfl rfl,
    delete_unpublish_tolerance.2.2.1 [] sampleURI "n1" "d" rfl rfl,
    delete_unpublish_tolerance.2.2.2 [] "x" "n1" (diskNameErr "x") rfl⟩

/-- C5: a PublishVolume call whose disk URI cannot be parsed fails with a
NotFound error whose message contains the parse error text verbatim, and
performs no store access (the failure precedes the attachment lookup and no
resource is written). -/
theorem publishVolume_parse_failure_notFound
    (store : List AzVolumeAttachment) (terminal : AzVolumeAttachmentStatus)
    (namespaceName diskURI nodeID : String) (volumeContext : StrMap) (e : String)
    (hparse : getDiskName diskURI = .error e) :
    PublishVolume store terminal namespaceName diskURI nodeID volumeContext =
      (.error (.grpc .notFound ("Error finding volume : " ++ e)), []) ∧
    containsSub ("Error finding volume : " ++ e) e = true := by
  constructor
  · unfold PublishVolume
    rw [hparse]
  · exact containsSub_append_end "Error finding volume : " e

theorem publishVolume_parse_failure_notFound_witness :
    PublishVolume [] ⟨none, none, .attaching⟩ "azure-disk-csi" "x" "n1" (some []) =
      (.error (.grpc .notFound ("Error finding volume : " ++ diskNameErr "x")), []) ∧
    containsSub ("Error finding volume : " ++ diskNameErr "x") (diskNameErr "x") = true :=
  publishVolume_parse_failure_notFound [] ⟨none, none, .attaching⟩ "azure-disk-csi"
    "x" "n1" (some []) (diskNameErr "x") rfl

/-- C6: an ExpandVolume call whose parsed disk name resolves to no Volume
resource fails with an Internal error whose message includes the resolved
lookup volume name and the underlying not-found error text, and performs no
store write. -/
theorem expandVolume_missing_volume_internal
    (store : List AzVolume) (terminal : AzVolumeStatus) (diskURI diskName : String)
    (capacityRange : Option CapacityRange)
    (hparse : getDiskName diskURI = .ok diskName)
    (hmiss : lookupVolume store (deriveVolumeName diskName) = none) :
    ExpandVolume store terminal diskURI capacityRange =
      (.error (.grpc .internal (expandLookupErrMsg diskURI
        (volumeNotFoundMsg (deriveVolumeName diskName)))), []) ∧
    containsSub (expandLookupErrMsg diskURI
      (volumeNotFoundMsg (deriveVolumeName diskName)))
      (deriveVolumeName diskName) = true ∧
    containsSub (expandLookupErrMsg diskURI
      (volumeNotFoundMsg (deriveVolumeName diskName)))
      (volumeNotFoundMsg (deriveVolumeName diskName)) = true := by
  refine ⟨?_, ?_, ?_⟩
  · unfold ExpandVolume
    rw [hparse]
    simp [hmiss]
  · unfold expandLookupErrMsg volumeNotFoundMsg
    refine containsSub_append_left _ _ _ ?_
    rw [String.append_assoc]
    refine containsSub_append_left _ _ _ ?_
    exact containsSub_append_start _ "\" not found"
  · unfold expandLookupErrMsg
    exact containsSub_append_end _ _

theorem expandVolume_missing_volume_internal_witness :
    ExpandVolume [] ⟨none, none⟩ sampleURI (some ⟨4, 4⟩) =
      (.error (.grpc .internal (expandLookupErrMsg sampleURI
        (volumeNotFoundMsg (deriveVolumeName "d")))), []) ∧
    containsSub (expandLookupErrMsg sampleURI
      (volumeNotFoundMsg (deriveVolumeName "d"))) (deriveVolumeName "d") = true ∧
    containsSub (expandLookupErrMsg sampleURI
      (volumeNotFoundMsg (deriveVolumeName "d")))
      (volumeNotFoundMsg (deriveVolumeName "d")) = true :=
  expandVolume_missing_volume_internal [] ⟨none, none⟩ sampleURI "d"
    (some ⟨4, 4⟩) rfl rfl

/-! ### Nil/empty normalization (for the C7 invariance statement) -/

/-- Replace a nil map by the empty map. -/
def normMap (m : StrMap) : StrMap := some (entriesOf m)

/-- Replace a nil capacity range by the zero-valued range. -/
def normCapacityRange (c : Option CapacityRange) : Option CapacityRange :=
  some (c.getD zeroCapacityRange)

/-- Replace a nil content source by the zero-valued source. -/
def normContentSource (c : Option ContentVolumeSource) : Option ContentVolumeSource :=
  some (c.getD zeroContentVolumeSource)

/-- Replace a nil segment map by the empty map inside a topology element. -/
def normTopology (t : Topology) : Topology := ⟨normMap t.segments⟩

/-- Replace a nil topology requirement by the empty requirement and nil
segment maps by empty maps. -/
def normTopologyRequirement (tr : Option TopologyRequirement) :
    Option TopologyRequirement :=
  let t := tr.getD emptyTopologyRequirement
  some ⟨t.preferred.map normTopology, t.requisite.map normTopology⟩

/-- Replace every nil optional field of a Volume spec by its empty value. -/
def normVolume (v : AzVolume) : AzVolume :=
  { v with
    spec :=
      { v.spec with
        capacityRange := normCapacityRange v.spec.capacityRange
        parameters := normMap v.spec.parameters
        secrets := normMap v.spec.secrets
        contentVolumeSource := normContentSource v.spec.contentVolumeSource
        accessibilityRequirements :=
          normTopologyRequirement v.spec.accessibilityRequirements } }

theorem topologiesEqual_norm_left (a b : Topology) :
    topologiesEqual (normTopology a) b = topologiesEqual a b := rfl

theorem topologiesEqual_norm_right (a b : Topology) :
    topologiesEqual a (normTopology b) = topologiesEqual a b := rfl

theorem topologyListsEqual_map_norm_left (xs : List Topology) :
    ∀ ys, topologyListsEqual (xs.map normTopology) ys = topologyListsEqual xs ys := by
  induction xs with
  | nil => intro ys; cases ys <;> rfl
  | cons a as ih =>
    intro ys
    cases ys with
    | nil => rfl
    | cons b bs =>
      simp only [List.map_cons, topologyListsEqual, ih bs, topologiesEqual_norm_left]

theorem topologyListsEqual_map_norm_right (ys : List Topology) :
    ∀ xs, topologyListsEqual xs (ys.map normTopology) = topologyListsEqual xs ys := by
  induction ys with
  | nil => intro xs; cases xs <;> rfl
  | cons b bs ih =>
    intro xs
    cases xs with
    | nil => rfl
    | cons a as =>
      simp only [List.map_cons, topologyListsEqual, ih as, topologiesEqual_norm_right]

theorem topologyRequirementsEqual_norm_left (a b : Option TopologyRequirement) :
    topologyRequirementsEqual (normTopologyRequirement a) b =
      topologyRequirementsEqual a b := by
  cases a <;>
    simp only [topologyRequirementsEqual, normTopologyRequirement,
      emptyTopologyRequirement, Option.getD_some, Option.getD_none, List.map_nil,
      topologyListsEqual_map_norm_left]

theorem topologyRequirementsEqual_norm_right (a b : Option TopologyRequirement) :
    topologyRequirementsEqual a (normTopologyRequirement b) =
      topologyRequirementsEqual a b := by
  cases b <;>
    simp only [topologyRequirementsEqual, normTopologyRequirement,
      emptyTopologyRequirement, Option.getD_some, Option.getD_none, List.map_nil,
      topologyListsEqual_map_norm_right]

/-- C7: the spec-equality check is invariant under replacing nil optional
fields by their empty values on either side — on the persisted spec
(`normVolume`) and on the request arguments — and, concretely, a spec whose
optional fields are all nil compares equal to a request supplying the
corresponding empty values, and conversely. -/
theorem isSameSpec_nil_empty_equivalence :
    (∀ (v : AzVolume) (mc : Int) (cr : Option CapacityRange) (p s : StrMap)
      (cs : Option ContentVolumeSource) (ar : Option TopologyRequirement),
      isAzVolumeSpecSameAsRequestParams (normVolume v) mc cr p s cs ar =
        isAzVolumeSpecSameAsRequestParams v mc cr p s cs ar ∧
      isAzVolumeSpecSameAsRequestParams v mc (normCapacityRange cr) (normMap p)
        (normMap s) (normContentSource cs) (normTopologyRequirement ar) =
        isAzVolumeSpecSameAsRequestParams v mc cr p s cs ar) ∧
    (∀ (v : AzVolume) (mc : Int),
      v.spec.capacityRange = none → v.spec.parameters = none →
      v.spec.secrets = none → v.spec.contentVolumeSource = none →
      v.spec.accessibilityRequirements = none →
      v.spec.maxMountReplicaCount = mc →
      isAzVolumeSpecSameAsRequestParams v mc (some zeroCapacityRange) (some [])
        (some []) (some zeroContentVolumeSource) (some emptyTopologyRequirement) =
        true) ∧
    (∀ (v : AzVolume) (mc : Int),
      v.spec.capacityRange = some zeroCapacityRange → v.spec.parameters = some [] →
      v.spec.secrets = some [] →
      v.spec.contentVolumeSource = some zeroContentVolumeSource →
      v.spec.accessibilityRequirements = some emptyTopologyRequirement →
      v.spec.maxMountReplicaCount = mc →
      isAzVolumeSpecSameAsRequestParams v mc none none none none none = true) := by
  refine ⟨?_, ?_, ?_⟩
  · intro v mc cr p s cs ar
    constructor
    · simp only [isAzVolumeSpecSameAsRequestParams, normVolume,
        topologyRequirementsEqual_norm_left]
      rfl
    · simp only [isAzVolumeSpecSameAsRequestParams,
        topologyRequirementsEqual_norm_right]
      rfl
  · intro v mc h₁ h₂ h₃ h₄ h₅ h₆
    simp [isAzVolumeSpecSameAsRequestParams, h₁, h₂, h₃, h₄, h₅, h₆, mapsEqual,
      entriesOf, capacityRangesEqual, contentSourcesEqual,
      topologyRequirementsEqual, topologyListsEqual, emptyTopologyRequirement]
  · intro v mc h₁ h₂ h₃ h₄ h₅ h₆
    simp [isAzVolumeSpecSameAsRequestParams, h₁, h₂, h₃, h₄, h₅, h₆, mapsEqual,
      entriesOf, capacityRangesEqual, contentSourcesEqual,
      topologyRequirementsEqual, topologyListsEqual, emptyTopologyRequirement]

theorem isSameSpec_nil_empty_equivalence_witness :
    isAzVolumeSpecSameAsRequestParams
      ⟨"v1", ⟨"v1", 1, [⟨.mount, .singleNodeWriter⟩], none, none, none, none, none⟩,
        ⟨none, none⟩⟩ 1 (some zeroCapacityRange) (some []) (some [])
      (some zeroContentVolumeSource) (some emptyTopologyRequirement) = true ∧
    isAzVolumeSpecSameAsRequestParams
      ⟨"v1", ⟨"v1", 1, [⟨.mount, .singleNodeWriter⟩], some zeroCapacityRange,
        some [], some [], some zeroContentVolumeSource,
        some emptyTopologyRequirement⟩, ⟨none, none⟩⟩ 1 none none none none none =
      true :=
  ⟨isSameSpec_nil_empty_equivalence.2.1
      ⟨"v1", ⟨"v1", 1, [⟨.mount, .singleNodeWriter⟩], none, none, none, none, none⟩,
        ⟨none, none⟩⟩ 1 rfl rfl rfl rfl rfl rfl,
    isSameSpec_nil_empty_equivalence.2.2
      ⟨"v1", ⟨"v1", 1, [⟨.mount, .singleNodeWriter⟩], some zeroCapacityRange,
        some [], some [], some zeroContentVolumeSource,
        some emptyTopologyRequirement⟩, ⟨none, none⟩⟩ 1 rfl rfl rfl rfl rfl rfl⟩

/-- The fixture topology requirement with its preferred elements swapped:
the same topology elements in a different order. -/
def reorderedTopoReq : TopologyRequirement := ⟨[sampleTopo2, sampleTopo1], [sampleTopo3]⟩

theorem topologyListsEqual_iff (xs : List Topology) :
    ∀ ys, topologyListsEqual xs ys = true ↔
      xs.length = ys.length ∧ ∀ p ∈ xs.zip ys, topologiesEqual p.1 p.2 = true := by
  induction xs with
  | nil =>
    intro ys
    cases ys <;> simp [topologyListsEqual]
  | cons a as ih =>
    intro ys
    cases ys with
    | nil => simp [topologyListsEqual]
    | cons b bs =>
      simp only [topologyListsEqual, Bool.and_eq_true, ih bs, List.length_cons,
        List.zip_cons_cons, List.mem_cons, add_left_inj]
      constructor
      · rintro ⟨hab, hlen, hall⟩
        exact ⟨hlen, fun p hp => hp.elim (fun hpe => hpe ▸ hab) (hall p)⟩
      · rintro ⟨hlen, hall⟩
        exact ⟨hall (a, b) (Or.inl rfl), hlen, fun p hp => hall p (Or.inr hp)⟩

/-- C8: the topology comparison of the spec-equality check requires the
preferred and requisite lists to match element-wise in the same order, and
reordering is not tolerated: the fixture requirement and its reordering
contain the same elements yet compare unequal, and the top-level spec check
rejects a request differing only in that reordering. -/
theorem topology_order_strictness :
    (∀ a b : Option TopologyRequirement,
      topologyRequirementsEqual a b = true ↔
        ((a.getD emptyTopologyRequirement).preferred.length =
            (b.getD emptyTopologyRequirement).preferred.length ∧
          (∀ p ∈ (a.getD emptyTopologyRequirement).preferred.zip
              (b.getD emptyTopologyRequirement).preferred,
            topologiesEqual p.1 p.2 = true) ∧
          (a.getD emptyTopologyRequirement).requisite.length =
            (b.getD emptyTopologyRequirement).requisite.length ∧
          (∀ p ∈ (a.getD emptyTopologyRequirement).requisite.zip
              (b.getD emptyTopologyRequirement).requisite,
            topologiesEqual p.1 p.2 = true))) ∧
    List.Perm sampleTopoReq.preferred reorderedTopoReq.preferred ∧
    sampleTopoReq.requisite = reorderedTopoReq.requisite ∧
    topologyRequirementsEqual (some sampleTopoReq) (some reorderedTopoReq) = false ∧
    isAzVolumeSpecSameAsRequestParams sampleVolume 0 (some ⟨2, 2⟩)
      (some [("location", "westus2")]) (some [("secret", "not really")])
      (some ⟨.volume, "content-volume-source"⟩) (some reorderedTopoReq) = false ∧
    isAzVolumeSpecSameAsRequestParams sampleVolume 0 (some ⟨2, 2⟩)
      (some [("location", "westus2")]) (some [("secret", "not really")])
      (some ⟨.volume, "content-volume-source"⟩) (some sampleTopoReq) = true := by
  refine ⟨?_, ?_, rfl, by decide, by decide, by decide⟩
  · intro a b
    simp only [topologyRequirementsEqual, Bool.and_eq_true, topologyListsEqual_iff]
    constructor
    · rintro ⟨⟨h₁, h₂⟩, h₃, h₄⟩
      exact ⟨h₁, h₂, h₃, h₄⟩
    · rintro ⟨h₁, h₂, h₃, h₄⟩
      exact ⟨⟨h₁, h₂⟩, h₃, h₄⟩
  · exact List.Perm.swap sampleTopo2 sampleTopo1 []

theorem topology_order_strictness_witness :
    topologyRequirementsEqual (some emptyTopologyRequirement) none = true ∧
    topologyRequirementsEqual (some sampleTopoReq) (some reorderedTopoReq) = false :=
  ⟨(topology_order_strictness.1 (some emptyTopologyRequirement) none).mpr
      ⟨rfl, fun p hp => absurd hp (List.not_mem_nil p), rfl,
        fun p hp => absurd hp (List.not_mem_nil p)⟩,
    topology_order_strictness.2.2.2.1⟩

/-- C9: the lock-registry contract — TryAcquire(key) returns true and marks
the key held iff the key was previously free, returns false and changes
nothing when the key is held, and Release(key) marks the key free
unconditionally, is a no-op on a free key, and is idempotent. -/
theorem volumeLocks_contract :
    ∀ (locks : VolumeLocks) (key : String),
      ((VolumeLocks.TryAcquire locks key).1 = true ↔ key ∉ locks) ∧
      key ∈ (VolumeLocks.TryAcquire locks key).2 ∧
      (key ∈ locks → VolumeLocks.TryAcquire locks key = (false, locks)) ∧
      key ∉ VolumeLocks.Release locks key ∧
      (key ∉ locks → VolumeLocks.Release locks key = locks) ∧
      VolumeLocks.Release (VolumeLocks.Release locks key) key =
        VolumeLocks.Release locks key := by
  intro locks key
  refine ⟨?_, ?_, ?_, ?_, ?_, ?_⟩
  · by_cases h : key ∈ locks <;> simp [VolumeLocks.TryAcquire, h]
  · by_cases h : key ∈ locks <;> simp [VolumeLocks.TryAcquire, h]
  · intro h
    simp [VolumeLocks.TryAcquire, h]
  · simp [VolumeLocks.Release, List.mem_filter]
  · intro h
    exact List.filter_eq_self.mpr fun a ha =>
      decide_eq_true fun heq => h (heq ▸ ha)
  · exact List.filter_eq_self.mpr fun a ha => (List.mem_filter.mp ha).2

theorem volumeLocks_contract_witness :
    VolumeLocks.TryAcquire ["vol"] "vol" = (false, ["vol"]) ∧
    "vol" ∈ (VolumeLocks.TryAcquire [] "vol").2 ∧
    VolumeLocks.Release [] "vol" = [] :=
  ⟨(volumeLocks_contract ["vol"] "vol").2.2.1 (by simp),
    (volumeLocks_contract [] "vol").2.1,
    (volumeLocks_contract [] "vol").2.2.2.2.1 (by simp)⟩

/-- Attachment fixture matched by all three az-analyze listings whose status
detail is absent (still Attaching), triggering the unguarded dereference. -/
def nilDetailAtt : AzVolumeAttachment :=
  { name := "att1"
    namespaceName := "azure-disk-csi"
    creationTimestamp := 0
    spec :=
      { volumeName := "att1", volumeID := "vol", nodeName := "n1"
        volumeContext := some [(pvcNameKey, "c")], requestedRole := .primary }
    status := { detail := none, error := none, state := .attaching } }

/-- C10: the az-analyze attachment listings read the status-detail role of
every matching attachment without a presence check: each completes (returns a
listing) whenever every matching attachment's status detail is populated, and
each faults (models the nil-pointer panic as `none`) on a store holding a
matching attachment whose status detail is absent. -/
theorem azva_listing_requires_status_detail :
    (∀ (pvcClaimNameSet : List (String × String)) (now : Int)
      (atts : List AzVolumeAttachment),
      (∀ a ∈ atts,
        (lookupPairs pvcClaimNameSet
          ((lookupPairs (entriesOf a.spec.volumeContext) pvcNameKey).getD "")).isSome =
            true →
        a.status.detail.isSome = true) →
      (GetAzVolumeAttachementsByPod pvcClaimNameSet now atts).isSome = true) ∧
    (∀ (nodeNames : List String) (now : Int) (atts : List AzVolumeAttachment),
      (∀ a ∈ atts, a.spec.nodeName ∈ nodeNames → a.status.detail.isSome = true) →
      (GetAzVolumeAttachementsByNode nodeNames now atts).isSome = true) ∧
    (∀ (nodeSet : List (String × String)) (now : Int)
      (atts : List AzVolumeAttachment),
      (∀ a ∈ atts, (lookupPairs nodeSet a.spec.nodeName).isSome = true →
        a.status.detail.isSome = true) →
      (GetAzVolumeAttachementsByZone nodeSet now atts).isSome = true) ∧
    GetAzVolumeAttachementsByPod [("c", "p")] 0 [nilDetailAtt] = none ∧
    GetAzVolumeAttachementsByNode ["n1"] 0 [nilDetailAtt] = none ∧
    GetAzVolumeAttachementsByZone [("n1", "z1")] 0 [nilDetailAtt] = none := by
  refine ⟨?_, ?_, ?_, rfl, rfl, rfl⟩
  · intro pvcClaimNameSet now atts h
    induction atts with
    | nil => rfl
    | cons a rest ih =>
      have hrest := fun x hx => h x (List.mem_cons_of_mem a hx)
      simp only [GetAzVolumeAttachementsByPod]
      cases hm : lookupPairs pvcClaimNameSet
          ((lookupPairs (entriesOf a.spec.volumeContext) pvcNameKey).getD "") with
      | none => exact ih hrest
      | some pName =>
        have hd := h a (List.mem_cons_self a rest) (by rw [hm]; rfl)
        cases hdet : a.status.detail with
        | none => rw [hdet] at hd; exact absurd hd (by simp)
        | some d => simp [hdet, Option.isSome_map, ih hrest]
  · intro nodeNames now atts h
    induction atts with
    | nil => rfl
    | cons a rest ih =>
      have hrest := fun x hx => h x (List.mem_cons_of_mem a hx)
      simp only [GetAzVolumeAttachementsByNode]
      by_cases hm : a.spec.nodeName ∈ nodeNames
      · have hd := h a (List.mem_cons_self a rest) hm
        cases hdet : a.status.detail with
        | none => rw [hdet] at hd; exact absurd hd (by simp)
        | some d => simp [hm, hdet, Option.isSome_map, ih hrest]
      · simp only [if_neg hm]
        exact ih hrest
  · intro nodeSet now atts h
    induction atts with
    | nil => rfl
    | cons a rest ih =>
      have hrest := fun x hx => h x (List.mem_cons_of_mem a hx)
      simp only [GetAzVolumeAttachementsByZone]
      cases hm : lookupPairs nodeSet a.spec.nodeName with
      | none => exact ih hrest
      | some zName =>
        have hd := h a (List.mem_cons_self a rest) (by rw [hm]; rfl)
        cases hdet : a.status.detail with
        | none => rw [hdet] at hd; exact absurd hd (by simp)
        | some d => simp [hdet, Option.isSome_map, ih hrest]

theorem azva_listing_requires_status_detail_witness :
    (GetAzVolumeAttachementsByPod [("c", "p")] 0 []).isSome = true ∧
    (GetAzVolumeAttachementsByNode ["n1"] 0 []).isSome = true ∧
    (GetAzVolumeAttachementsByZone [("n1", "z1")] 0 []).isSome = true :=
  ⟨azva_listing_requires_status_detail.1 [("c", "p")] 0 []
      (fun a ha => absurd ha (List.not_mem_nil a)),
    azva_listing_requires_status_detail.2.1 ["n1"] 0 []
      (fun a ha => absurd ha (List.not_mem_nil a)),
    azva_listing_requires_status_detail.2.2.1 [("n1", "z1")] 0 []
      (fun a ha => absurd ha (List.not_mem_nil a))⟩

end AzDisk
